import Mathlib

/-!
Shallow embedding of the Dyson cloud client (`src/dyson-client.ts`) and the
parts of its MCP entry point that the verified claims concern.

Pure helpers (fan-speed parsing/encoding, air-quality classification,
temperature formatting, Kelvin conversion) are translated as Lean functions
over `String`, `Int` and `ℚ` (JavaScript number arithmetic is modelled as
exact rational arithmetic; `Math.round` is rounding half toward positive
infinity).  The effectful client methods (`authenticate`, `getDevices`,
`getDevice`, `getDeviceStatus`, `setDeviceState`, `setFanSpeed`) are
modelled as state-passing functions over an explicit client state
(auth token + device directory), a response environment (one response
stream per endpoint, indexed by call count) and call counters; the
recursive retry in `getDevices` is modelled with explicit fuel, where a
`none` result means the recursion did not terminate within the given fuel.
-/

/-- Numeric value of a list of decimal digit characters (most significant first). -/
def digitsToNat (ds : List Char) : Nat :=
  ds.foldl (fun a c => a * 10 + (c.toNat - 48)) 0

/-- JavaScript `parseInt(s, 10)`: skip leading whitespace, optional sign, then
the longest prefix of decimal digits; `none` models `NaN` (no digits found).
Trailing non-digit characters are ignored, as in JavaScript. -/
def jsParseInt (s : String) : Option Int :=
  let cs := s.data.dropWhile fun c => c == ' ' || c == '\t' || c == '\n' || c == '\r'
  match cs with
  | '-' :: rest =>
      let ds := rest.takeWhile Char.isDigit
      if ds.isEmpty then none else some (-(digitsToNat ds : Int))
  | '+' :: rest =>
      let ds := rest.takeWhile Char.isDigit
      if ds.isEmpty then none else some ((digitsToNat ds : Int))
  | _ =>
      let ds := cs.takeWhile Char.isDigit
      if ds.isEmpty then none else some ((digitsToNat ds : Int))

/-- JavaScript `s.toUpperCase()` restricted to ASCII, which is all the client
compares against. -/
def toUpper (s : String) : String := String.mk (s.data.map Char.toUpper)

/-- JavaScript `s.padStart(4, '0')`. -/
def padStart4 (s : String) : String :=
  if 4 ≤ s.length then s else String.mk (List.replicate (4 - s.length) '0') ++ s

/-- JavaScript `Math.round`: round half toward positive infinity. -/
def jsRound (q : ℚ) : ℤ := ⌊q + 1/2⌋

/-- JavaScript `(n).toString()` for an integer-or-NaN value (`none` = `NaN`). -/
def jsIntToString (n : Option Int) : String :=
  match n with
  | none => "NaN"
  | some n => toString n

/-- Fractional decimal digits of `q` (expected in `[0,1)`), with fuel. -/
def fracDigits : Nat → ℚ → String
  | 0, _ => ""
  | Nat.succ fuel, q =>
    if q = 0 then ""
    else toString ⌊q * 10⌋ ++ fracDigits fuel (q * 10 - (⌊q * 10⌋ : ℚ))

/-- Decimal rendering of a nonnegative rational, shortest form (no trailing
zeros, no decimal point for integers), matching JavaScript number-to-string
on decimally-representable values. -/
def jsNumToStringCore (q : ℚ) : String :=
  if ((⌊q⌋ : ℚ) = q) then toString ⌊q⌋
  else toString ⌊q⌋ ++ "." ++ fracDigits 20 (q - (⌊q⌋ : ℚ))

/-- JavaScript number-to-string used by template interpolation. -/
def jsNumToString (q : ℚ) : String :=
  if q < 0 then "-" ++ jsNumToStringCore (-q) else jsNumToStringCore q

/-- DysonClient.parseFanSpeed: `"AUTO"` decodes to `"auto"`; any other code is
`parseInt(fnsp, 10).toString()` (so an unparseable code renders as `"NaN"`). -/
def parseFanSpeed (fnsp : String) : String :=
  if fnsp = "AUTO" then "auto" else jsIntToString (jsParseInt fnsp)

/-- DysonClient.kelvinToCelsius: `Math.round((kelvin - 273.15) * 10) / 10`. -/
def kelvinToCelsius (kelvin : ℚ) : ℚ :=
  (jsRound ((kelvin - 27315/100) * 10) : ℚ) / 10

/-- DysonClient.formatTemperature: Celsius renders the raw value with `°C`;
Fahrenheit renders `Math.round(celsius * 9/5 + 32)` with `°F`. -/
def formatTemperature (celsius : ℚ) (unit : Char) : String :=
  if unit = 'F' then toString (jsRound (celsius * 9/5 + 32)) ++ "°F"
  else jsNumToString celsius ++ "°C"

/-- DysonClient.getAirQualityLevel: the PM2.5 banding with inclusive upper
bounds exactly as in the source's if-chain. -/
def getAirQualityLevel (pm25 : ℚ) : String :=
  if pm25 ≤ 12 then "Good"
  else if pm25 ≤ 35 then "Moderate"
  else if pm25 ≤ 55 then "Unhealthy for Sensitive Groups"
  else if pm25 ≤ 150 then "Unhealthy"
  else if pm25 ≤ 250 then "Very Unhealthy"
  else "Hazardous"

/-- Wire state of a device (`DysonState` in the source): mandatory control
fields plus optional string-encoded sensor fields. -/
structure DysonState where
  fpwr : String
  fnsp : String
  oson : String
  nmod : String
  auto : String
  hact : Option String
  tact : Option String
  pact : Option String
  vact : Option String
  pm25 : Option String
  pm10 : Option String
  noxl : Option String
deriving DecidableEq, Repr

/-- JavaScript truthiness of an optional string field: `undefined` and the
empty string are falsy, every other string is truthy. -/
def truthy (o : Option String) : Bool :=
  match o with
  | none => false
  | some s => !(s == "")

/-- Parsed numeric JavaScript value of a string field (`none` = `NaN`),
as a rational. -/
def jsParseIntQ (s : String) : Option ℚ :=
  (jsParseInt s).map fun n => (n : ℚ)

/-- Semantic air-quality record (`AirQuality` in the source).  JavaScript
numbers are modelled as `Option ℚ`, where `none` stands for `NaN` (a present
but unparseable sensor field). -/
structure AirQuality where
  pm25 : Option ℚ
  pm10 : Option ℚ
  voc : Option ℚ
  no2 : Option ℚ
  humidity : Option ℚ
  temperature : Option ℚ
deriving DecidableEq, Repr

/-- DysonClient.parseAirQuality: `null` unless at least one of `pm25`, `pact`,
`hact` is (JavaScript-)truthy; each numeric field falls back to `0` when its
wire field is falsy; `pm25` falls back to `pact` before `0`; temperature
converts `tact` (Kelvin tenths) through `kelvinToCelsius`. -/
def parseAirQuality (state : DysonState) : Option AirQuality :=
  if !truthy state.pm25 && !truthy state.pact && !truthy state.hact then none
  else some
    { pm25 := if truthy state.pm25 then jsParseIntQ (state.pm25.getD "")
              else if truthy state.pact then jsParseIntQ (state.pact.getD "") else some 0
      pm10 := if truthy state.pm10 then jsParseIntQ (state.pm10.getD "") else some 0
      voc := if truthy state.vact then jsParseIntQ (state.vact.getD "") else some 0
      no2 := if truthy state.noxl then jsParseIntQ (state.noxl.getD "") else some 0
      humidity := if truthy state.hact then jsParseIntQ (state.hact.getD "") else some 0
      temperature := if truthy state.tact then
          (jsParseInt (state.tact.getD "")).map fun n => kelvinToCelsius ((n : ℚ) / 10)
        else some 0 }

/-- Device descriptor (`DysonDevice` in the source). -/
structure DysonDevice where
  serial : String
  name : String
  productType : String
  productTypeName : String
  connectionType : String
  localCredentials : Option String
deriving DecidableEq, Repr

/-- Semantic device status (`DeviceStatus` in the source). -/
structure DeviceStatus where
  serial : String
  name : String
  power : Bool
  fanSpeed : String
  oscillation : Bool
  nightMode : Bool
  autoMode : Bool
  airQuality : Option AirQuality
deriving DecidableEq, Repr

/-- Projection of a fetched wire state to the semantic status, as built by
DysonClient.getDeviceStatus after a successful state fetch. -/
def deviceStatusOfState (device : DysonDevice) (state : DysonState) : DeviceStatus :=
  { serial := device.serial
    name := device.name
    power := state.fpwr == "ON"
    fanSpeed := parseFanSpeed state.fnsp
    oscillation := state.oson == "ON"
    nightMode := state.nmod == "ON"
    autoMode := state.auto == "ON"
    airQuality := parseAirQuality state }

/-- Wire fields written by DysonClient.setFanSpeed. -/
structure FanSpeedWire where
  fnsp : String
  auto : String
  fpwr : String
deriving DecidableEq, Repr

/-- Validation and wire encoding performed by DysonClient.setFanSpeed before
any request is issued; `none` models the `InvalidFanSpeed` error
(`Fan speed must be 1-10 or "auto"`). -/
def setFanSpeedWire (speed : String) : Option FanSpeedWire :=
  if toUpper speed = "AUTO" then
    some { fnsp := "AUTO", auto := "ON", fpwr := "ON" }
  else
    match jsParseInt speed with
    | none => none
    | some speedNum =>
      if speedNum < 1 ∨ speedNum > 10 then none
      else some { fnsp := padStart4 (toString speedNum), auto := "OFF", fpwr := "ON" }

/-- Raw manifest entry as returned by the cloud (`device` in
DysonClient.getDevices's mapping). -/
structure RawDevice where
  rawSerial : String
  rawName : Option String
  rawProductType : String
  rawConnectionType : String
  rawLocalCredentials : Option String
deriving DecidableEq, Repr

/-- Static product-type code table (`DEVICE_TYPES`). -/
def DEVICE_TYPES : List (String × String) :=
  [("358", "Pure Humidify+Cool"), ("438", "Pure Cool Formaldehyde"),
   ("455", "Pure Hot+Cool Link"), ("469", "Pure Cool Link Desk"),
   ("475", "Pure Cool Link Tower"), ("520", "Pure Cool"), ("527", "Pure Hot+Cool")]

/-- Lookup in `DEVICE_TYPES` with the source's fallback label. -/
def lookupDeviceType (productType : String) : String :=
  match DEVICE_TYPES.find? (fun p => p.1 == productType) with
  | some p => p.2
  | none => "Unknown Dyson Device"

/-- The per-entry mapping in DysonClient.getDevices (`data.map(device => ...)`);
`device.Name || fallback` treats an absent or empty name as falsy. -/
def mapRaw (d : RawDevice) : DysonDevice :=
  { serial := d.rawSerial
    name := match d.rawName with
            | some n => if n == "" then "Dyson " ++ d.rawProductType else n
            | none => "Dyson " ++ d.rawProductType
    productType := d.rawProductType
    productTypeName := lookupDeviceType d.rawProductType
    connectionType := d.rawConnectionType
    localCredentials := d.rawLocalCredentials }

/-- Errors thrown by the client, one constructor per `throw new Error(...)`. -/
inductive DysonError where
  | invalidCredentials
  | authenticationFailed (status : Nat)
  | getDevicesFailed (status : Nat)
  | deviceNotFound (id : String)
  | noDevicesFound
  | getStatusFailed (status : Nat)
  | stateUpdateFailed (status : Nat)
  | invalidFanSpeed
  | airQualityUnavailable
deriving DecidableEq, Repr

/-- An HTTP response: status code and already-decoded body. -/
structure HttpResp (α : Type) where
  status : Nat
  body : α
deriving DecidableEq, Repr

/-- JavaScript `Response.ok`: status in `[200, 300)`. -/
def HttpResp.isOk {α : Type} (r : HttpResp α) : Bool :=
  decide (200 ≤ r.status ∧ r.status < 300)

/-- Response environment: the `i`-th call to each endpoint receives the `i`-th
response of its stream.  The PATCH body sent by `setDeviceState` does not
appear here because the model lets every stream be arbitrary. -/
structure Env where
  authResp : Nat → HttpResp String
  manifestResp : Nat → HttpResp (List RawDevice)
  stateResp : Nat → HttpResp DysonState
  updateResp : Nat → HttpResp String

/-- How many calls have been issued to each endpoint so far. -/
structure Counters where
  auths : Nat
  manifests : Nat
  stateReads : Nat
  updates : Nat
deriving DecidableEq, Repr

/-- Mutable client state: `authToken` and the in-memory device directory. -/
structure ClientState where
  authToken : Option String
  devices : List DysonDevice
deriving DecidableEq, Repr

/-- DysonClient.authenticate applied to one auth response: ok stores the
token (`data.Account`, the body); 401 is `InvalidCredentials`; any other
non-success status is `AuthenticationFailed(status)`. -/
def authenticateResult (r : HttpResp String) : Except DysonError String :=
  if r.isOk then Except.ok r.body
  else if r.status = 401 then Except.error DysonError.invalidCredentials
  else Except.error (DysonError.authenticationFailed r.status)

/-- The `if (!this.authToken) await this.authenticate()` prelude shared by the
authenticated calls. -/
def ensureAuth (cs : ClientState) (cnt : Counters) (env : Env) :
    Except DysonError ClientState × Counters :=
  match cs.authToken with
  | some _ => (Except.ok cs, cnt)
  | none =>
    let r := env.authResp cnt.auths
    let cnt2 := { cnt with auths := cnt.auths + 1 }
    match authenticateResult r with
    | Except.ok tok => (Except.ok { cs with authToken := some tok }, cnt2)
    | Except.error e => (Except.error e, cnt2)

/-- DysonClient.getDevices with explicit fuel for the recursive 401 retry
(`return this.getDevices()`); `none` means the recursion consumed all fuel.
On a 401 the source clears the token, re-authenticates, and recurses with no
retry bound. -/
def getDevicesAux : Nat → ClientState → Counters → Env →
    Option (Except DysonError (List DysonDevice) × ClientState × Counters)
  | 0, _, _, _ => none
  | Nat.succ fuel, cs, cnt, env =>
    match ensureAuth cs cnt env with
    | (Except.error e, cnt2) => some (Except.error e, cs, cnt2)
    | (Except.ok cs2, cnt2) =>
      let r := env.manifestResp cnt2.manifests
      let cnt3 := { cnt2 with manifests := cnt2.manifests + 1 }
      if r.isOk then
        let devs := r.body.map mapRaw
        some (Except.ok devs, { cs2 with devices := devs }, cnt3)
      else if r.status = 401 then
        let ra := env.authResp cnt3.auths
        let cnt4 := { cnt3 with auths := cnt3.auths + 1 }
        match authenticateResult ra with
        | Except.error e => some (Except.error e, { cs2 with authToken := none }, cnt4)
        | Except.ok tok => getDevicesAux fuel { cs2 with authToken := some tok } cnt4 env
      else
        some (Except.error (DysonError.getDevicesFailed r.status), cs2, cnt3)

/-- Pure lookup part of DysonClient.getDevice, applied to the directory after
the optional fetch.  The source's `if (deviceId)` is JavaScript truthiness, so
an absent id and the empty-string id both fall through to the first-device
branch; only a truthy (non-empty) id triggers the serial lookup
(`DeviceNotFound` on a miss).  The falsy path returns the first entry, or
`NoDevicesFound` when the directory is empty. -/
def getDeviceFind (devices : List DysonDevice) (deviceId : Option String) :
    Except DysonError DysonDevice :=
  if truthy deviceId then
    let id := deviceId.getD ""
    match devices.find? (fun d => d.serial == id) with
    | some d => Except.ok d
    | none => Except.error (DysonError.deviceNotFound id)
  else
    match devices with
    | [] => Except.error DysonError.noDevicesFound
    | d :: _ => Except.ok d

/-- DysonClient.getDevice: fetch the directory first when it is empty, then
resolve. -/
def getDeviceM (fuel : Nat) (cs : ClientState) (cnt : Counters) (env : Env)
    (deviceId : Option String) :
    Option (Except DysonError DysonDevice × ClientState × Counters) :=
  if cs.devices.isEmpty then
    match getDevicesAux fuel cs cnt env with
    | none => none
    | some (Except.error e, cs2, cnt2) => some (Except.error e, cs2, cnt2)
    | some (Except.ok _, cs2, cnt2) => some (getDeviceFind cs2.devices deviceId, cs2, cnt2)
  else
    some (getDeviceFind cs.devices deviceId, cs, cnt)

/-- DysonClient.getDeviceStatus: ensure session, resolve device, fetch wire
state once (no retry of any kind: every non-success status, 401 included,
throws), project to the semantic status. -/
def getDeviceStatusM (fuel : Nat) (cs : ClientState) (cnt : Counters) (env : Env)
    (deviceId : Option String) :
    Option (Except DysonError DeviceStatus × ClientState × Counters) :=
  match ensureAuth cs cnt env with
  | (Except.error e, cnt2) => some (Except.error e, cs, cnt2)
  | (Except.ok cs2, cnt2) =>
    match getDeviceM fuel cs2 cnt2 env deviceId with
    | none => none
    | some (Except.error e, cs3, cnt3) => some (Except.error e, cs3, cnt3)
    | some (Except.ok dev, cs3, cnt3) =>
      let r := env.stateResp cnt3.stateReads
      let cnt4 := { cnt3 with stateReads := cnt3.stateReads + 1 }
      if r.isOk then
        some (Except.ok (deviceStatusOfState dev r.body), cs3, cnt4)
      else
        some (Except.error (DysonError.getStatusFailed r.status), cs3, cnt4)

/-- DysonClient.setDeviceState: ensure session, resolve device, issue the
PATCH once (non-success status, 401 included, throws `StateUpdateFailed`
with no retry and no confirming read), then on success return a fresh
`getDeviceStatus` of the resolved device. -/
def setDeviceStateM (fuel : Nat) (cs : ClientState) (cnt : Counters) (env : Env)
    (deviceId : Option String) (_patch : List (String × String)) :
    Option (Except DysonError DeviceStatus × ClientState × Counters) :=
  match ensureAuth cs cnt env with
  | (Except.error e, cnt2) => some (Except.error e, cs, cnt2)
  | (Except.ok cs2, cnt2) =>
    match getDeviceM fuel cs2 cnt2 env deviceId with
    | none => none
    | some (Except.error e, cs3, cnt3) => some (Except.error e, cs3, cnt3)
    | some (Except.ok dev, cs3, cnt3) =>
      let r := env.updateResp cnt3.updates
      let cnt4 := { cnt3 with updates := cnt3.updates + 1 }
      if r.isOk then
        getDeviceStatusM fuel cs3 cnt4 env (some dev.serial)
      else
        some (Except.error (DysonError.stateUpdateFailed r.status), cs3, cnt4)

/-- DysonClient.setFanSpeed: validate and encode before any I/O, then delegate
to `setDeviceState` with the three wire fields. -/
def setFanSpeedM (fuel : Nat) (cs : ClientState) (cnt : Counters) (env : Env)
    (deviceId : Option String) (speed : String) :
    Option (Except DysonError DeviceStatus × ClientState × Counters) :=
  match setFanSpeedWire speed with
  | none => some (Except.error DysonError.invalidFanSpeed, cs, cnt)
  | some w =>
    setDeviceStateM fuel cs cnt env deviceId
      [("fnsp", w.fnsp), ("auto", w.auto), ("fpwr", w.fpwr)]

/-- Spec-side reading of C2's acceptance set, for comparison with the code:
exactly `"auto"` case-insensitively, or the plain decimal string of an
integer between 1 and 10. -/
def specExactFanSpeedInput (s : String) : Prop :=
  toUpper s = "AUTO" ∨ ∃ n : Nat, 1 ≤ n ∧ n ≤ 10 ∧ s = toString n

/-- Spec-side four-digit zero-padded encoding of a speed in `[1,10]`. -/
def fourDigitCode (n : ℤ) : String :=
  if n < 10 then "000" ++ toString n else "00" ++ toString n

/-- Concrete wire state with no sensor fields. -/
def okState : DysonState :=
  ⟨"ON", "0007", "OFF", "OFF", "OFF", none, none, none, none, none, none, none⟩

/-- Concrete wire state whose `fnsp` is not a valid speed code. -/
def garbledState : DysonState :=
  ⟨"ON", "garbage", "OFF", "OFF", "OFF", none, none, none, none, none, none, none⟩

/-- Concrete wire state with a single sensor field (`pm25`). -/
def sensorState : DysonState :=
  ⟨"ON", "0003", "OFF", "OFF", "OFF", none, none, none, none, some "15", none, none⟩

/-- Concrete manifest entry. -/
def rawDev1 : RawDevice := ⟨"ABC123", some "Bedroom", "438", "wss", none⟩

/-- The device descriptor for `rawDev1`. -/
def dev1 : DysonDevice := mapRaw rawDev1

/-- Fresh client state: no token, empty directory. -/
def cs0 : ClientState := ⟨none, []⟩

/-- Zero call counters. -/
def cnt0 : Counters := ⟨0, 0, 0, 0⟩

/-- Environment whose manifest endpoint returns 401 twice and then succeeds,
with authentication always succeeding. -/
def envTwo401 : Env :=
  { authResp := fun _ => ⟨200, "tok"⟩
    manifestResp := fun i => if i < 2 then ⟨401, []⟩ else ⟨200, [rawDev1]⟩
    stateResp := fun _ => ⟨200, okState⟩
    updateResp := fun _ => ⟨200, ""⟩ }

/-- Environment whose manifest endpoint always returns 401 while
authentication always succeeds. -/
def envAll401 : Env :=
  { authResp := fun _ => ⟨200, "tok"⟩
    manifestResp := fun _ => ⟨401, []⟩
    stateResp := fun _ => ⟨200, okState⟩
    updateResp := fun _ => ⟨200, ""⟩ }

/-- Environment whose state-read endpoint always returns 401. -/
def envStatus401 : Env :=
  { authResp := fun _ => ⟨200, "tok"⟩
    manifestResp := fun _ => ⟨200, [rawDev1]⟩
    stateResp := fun _ => ⟨401, okState⟩
    updateResp := fun _ => ⟨200, ""⟩ }

/-- Environment where every call succeeds but the fetched wire state has a
malformed `fnsp` code. -/
def envGarbled : Env :=
  { authResp := fun _ => ⟨200, "tok"⟩
    manifestResp := fun _ => ⟨200, [rawDev1]⟩
    stateResp := fun _ => ⟨200, garbledState⟩
    updateResp := fun _ => ⟨200, ""⟩ }

/-- Environment where the update endpoint fails with 500 and everything else
succeeds. -/
def envUpdate500 : Env :=
  { authResp := fun _ => ⟨200, "tok"⟩
    manifestResp := fun _ => ⟨200, [rawDev1]⟩
    stateResp := fun _ => ⟨200, okState⟩
    updateResp := fun _ => ⟨500, ""⟩ }

/-- Air-quality record produced by `parseAirQuality sensorState`. -/
def sensorAirQuality : AirQuality :=
  { pm25 := jsParseIntQ "15", pm10 := some 0, voc := some 0, no2 := some 0
    humidity := some 0, temperature := some 0 }

/-! ## Helper lemmas -/

/-- With a token already present, `ensureAuth` is the identity. -/
theorem ensureAuth_some (t : String) (devs : List DysonDevice) (cnt : Counters) (env : Env) :
    ensureAuth ⟨some t, devs⟩ cnt env = (Except.ok ⟨some t, devs⟩, cnt) := rfl

/-- With a non-empty directory, `getDevice` performs no fetch. -/
theorem getDeviceM_cons (fuel : Nat) (tk : Option String) (dev : DysonDevice)
    (rest : List DysonDevice) (cnt : Counters) (env : Env) (deviceId : Option String) :
    getDeviceM fuel ⟨tk, dev :: rest⟩ cnt env deviceId =
      some (getDeviceFind (dev :: rest) deviceId, ⟨tk, dev :: rest⟩, cnt) := rfl

/-- Resolution with no id returns the head of the directory. -/
theorem getDeviceFind_first (dev : DysonDevice) (rest : List DysonDevice) :
    getDeviceFind (dev :: rest) none = Except.ok dev := rfl

/-- Resolution by the head's own serial returns the head. -/
theorem getDeviceFind_head (dev : DysonDevice) (rest : List DysonDevice) :
    getDeviceFind (dev :: rest) (some dev.serial) = Except.ok dev := by
  by_cases h : truthy (some dev.serial) = true
  · simp [getDeviceFind, h, List.find?]
  · simp [getDeviceFind, h]

/-- The next fetch of device status when a token is present, the directory is
non-empty and the wire-state fetch succeeds. -/
theorem getDeviceStatusM_ready (fuel : Nat) (t : String) (dev : DysonDevice)
    (rest : List DysonDevice) (cnt : Counters) (env : Env) (deviceId : Option String)
    (hfind : getDeviceFind (dev :: rest) deviceId = Except.ok dev)
    (hok : (env.stateResp cnt.stateReads).isOk = true) :
    getDeviceStatusM fuel ⟨some t, dev :: rest⟩ cnt env deviceId =
      some (Except.ok (deviceStatusOfState dev (env.stateResp cnt.stateReads).body),
            ⟨some t, dev :: rest⟩, { cnt with stateReads := cnt.stateReads + 1 }) := by
  simp only [getDeviceStatusM, ensureAuth_some, getDeviceM_cons, hfind, hok, if_true]

/-- Reduction of `setFanSpeedWire` on a non-AUTO input with unparseable speed. -/
theorem setFanSpeedWire_none (s : String) (hA : toUpper s ≠ "AUTO")
    (hP : jsParseInt s = none) : setFanSpeedWire s = none := by
  simp only [setFanSpeedWire, if_neg hA, hP]

/-- Reduction of `setFanSpeedWire` on a non-AUTO input with parsed speed `n`. -/
theorem setFanSpeedWire_some (s : String) (n : ℤ) (hA : toUpper s ≠ "AUTO")
    (hP : jsParseInt s = some n) :
    setFanSpeedWire s =
      if n < 1 ∨ n > 10 then none
      else some ⟨padStart4 (toString n), "OFF", "ON"⟩ := by
  simp only [setFanSpeedWire, if_neg hA, hP]

/-! ## Claim theorems -/

/-- C5: fan-speed encode/decode round-trips — for every integer speed in
`[1,10]`, encoding through `setFanSpeed`'s wire encoding and decoding the
resulting `fnsp` with `parseFanSpeed` yields the decimal string without
leading zeros, and `"auto"` encodes to wire `"AUTO"` which decodes back to
`"auto"`. -/
theorem fanSpeed_roundtrip :
    (∀ n : ℤ, 1 ≤ n → n ≤ 10 →
      (setFanSpeedWire (toString n)).map (fun w => parseFanSpeed w.fnsp) =
        some (toString n)) ∧
    (setFanSpeedWire "auto").map (fun w => parseFanSpeed w.fnsp) = some "auto" := by
  constructor
  · intro n h1 h10
    interval_cases n <;> decide
  · decide

/-- C5 witness: the round-trip at speed 7 and at `"auto"`. -/
theorem fanSpeed_roundtrip_witness :
    (setFanSpeedWire (toString (7 : ℤ))).map (fun w => parseFanSpeed w.fnsp) =
      some (toString (7 : ℤ)) :=
  fanSpeed_roundtrip.1 7 (by decide) (by decide)

/-- C8: `getAirQualityLevel` maps every pm25 value to a band with inclusive
upper bounds 12/35/55/150/250, boundary values belonging to the lower band. -/
theorem getAirQualityLevel_bands : ∀ pm25 : ℚ,
    (pm25 ≤ 12 → getAirQualityLevel pm25 = "Good") ∧
    (12 < pm25 → pm25 ≤ 35 → getAirQualityLevel pm25 = "Moderate") ∧
    (35 < pm25 → pm25 ≤ 55 → getAirQualityLevel pm25 = "Unhealthy for Sensitive Groups") ∧
    (55 < pm25 → pm25 ≤ 150 → getAirQualityLevel pm25 = "Unhealthy") ∧
    (150 < pm25 → pm25 ≤ 250 → getAirQualityLevel pm25 = "Very Unhealthy") ∧
    (250 < pm25 → getAirQualityLevel pm25 = "Hazardous") := by
  intro q
  unfold getAirQualityLevel
  refine ⟨fun h1 => ?_, fun h1 h2 => ?_, fun h1 h2 => ?_, fun h1 h2 => ?_,
    fun h1 h2 => ?_, fun h1 => ?_⟩
  · rw [if_pos h1]
  · rw [if_neg (by linarith), if_pos h2]
  · rw [if_neg (by linarith), if_neg (by linarith), if_pos h2]
  · rw [if_neg (by linarith), if_neg (by linarith), if_neg (by linarith), if_pos h2]
  · rw [if_neg (by linarith), if_neg (by linarith), if_neg (by linarith),
      if_neg (by linarith), if_pos h2]
  · rw [if_neg (by linarith), if_neg (by linarith), if_neg (by linarith),
      if_neg (by linarith), if_neg (by linarith)]

/-- C8 witness: the boundary values 12 and 12.01, plus one value from each of
the remaining bands. -/
theorem getAirQualityLevel_bands_witness :
    getAirQualityLevel 12 = "Good" ∧
    getAirQualityLevel (1201/100) = "Moderate" ∧
    getAirQualityLevel 55 = "Unhealthy for Sensitive Groups" ∧
    getAirQualityLevel 150 = "Unhealthy" ∧
    getAirQualityLevel 250 = "Very Unhealthy" ∧
    getAirQualityLevel 251 = "Hazardous" :=
  ⟨(getAirQualityLevel_bands 12).1 (by norm_num),
   (getAirQualityLevel_bands (1201/100)).2.1 (by norm_num) (by norm_num),
   (getAirQualityLevel_bands 55).2.2.1 (by norm_num) (by norm_num),
   (getAirQualityLevel_bands 150).2.2.2.1 (by norm_num) (by norm_num),
   (getAirQualityLevel_bands 250).2.2.2.2.1 (by norm_num) (by norm_num),
   (getAirQualityLevel_bands 251).2.2.2.2.2 (by norm_num)⟩

/-- C4: `setFanSpeed` writes `{fnsp: "AUTO", auto: "ON", fpwr: "ON"}` for a
case-insensitive `"auto"`, `{fnsp: four-digit zero-padded code, auto: "OFF",
fpwr: "ON"}` for a parsed speed in `[1,10]`, and every accepted input sets
`fpwr` to `"ON"`. -/
theorem setFanSpeed_wire_fields :
    (∀ s : String, toUpper s = "AUTO" →
      setFanSpeedWire s = some ⟨"AUTO", "ON", "ON"⟩) ∧
    (∀ (s : String) (n : ℤ), toUpper s ≠ "AUTO" → jsParseInt s = some n →
      1 ≤ n → n ≤ 10 →
      setFanSpeedWire s = some ⟨fourDigitCode n, "OFF", "ON"⟩) ∧
    (∀ (s : String) (w : FanSpeedWire), setFanSpeedWire s = some w → w.fpwr = "ON") := by
  refine ⟨?_, ?_, ?_⟩
  · intro s h
    simp [setFanSpeedWire, h]
  · intro s n hA hP h1 h10
    have hpad : padStart4 (toString n) = fourDigitCode n := by
      interval_cases n <;> decide
    simp only [setFanSpeedWire, if_neg hA, hP]
    rw [if_neg (by omega), hpad]
  · intro s w h
    by_cases hA : toUpper s = "AUTO"
    · simp only [setFanSpeedWire, if_pos hA, Option.some.injEq] at h
      subst h
      rfl
    · cases hP : jsParseInt s with
      | none => rw [setFanSpeedWire_none s hA hP] at h; cases h
      | some n =>
        rw [setFanSpeedWire_some s n hA hP] at h
        by_cases hrange : n < 1 ∨ n > 10
        · rw [if_pos hrange] at h
          cases h
        · rw [if_neg hrange] at h
          rw [← Option.some.inj h]

/-- C4 witness: `"AuTo"` produces the AUTO wire fields; `"7"` produces the
zero-padded numeric wire fields; the AUTO wire record has `fpwr = "ON"`. -/
theorem setFanSpeed_wire_fields_witness :
    setFanSpeedWire "AuTo" = some ⟨"AUTO", "ON", "ON"⟩ ∧
    setFanSpeedWire "7" = some ⟨fourDigitCode 7, "OFF", "ON"⟩ ∧
    (⟨"AUTO", "ON", "ON"⟩ : FanSpeedWire).fpwr = "ON" :=
  ⟨setFanSpeed_wire_fields.1 "AuTo" (by decide),
   setFanSpeed_wire_fields.2.1 "7" 7 (by decide) (by decide) (by decide) (by decide),
   setFanSpeed_wire_fields.2.2 "auto" ⟨"AUTO", "ON", "ON"⟩ (by decide)⟩

/-- C2 counterexample: the input `"7x"` — neither `"auto"` nor an integer
string 1–10 — is accepted by `setFanSpeed` (JavaScript `parseInt` ignores the
trailing `x`), so the acceptance set is strictly larger than the claim's. -/
theorem setFanSpeed_exactness_counterexample :
    (setFanSpeedWire "7x").isSome = true ∧ ¬ specExactFanSpeedInput "7x" := by
  constructor
  · decide
  · intro h
    rcases h with h | ⟨n, h1, h10, he⟩
    · exact absurd h (by decide)
    · interval_cases n <;> exact absurd he (by decide)

/-- C2 (amended): `setFanSpeed` accepts exactly `"auto"` (case-insensitive)
together with every string whose JavaScript `parseInt` value lies in `[1,10]`
(so leading whitespace, signs, leading zeros and trailing garbage are
tolerated); the speeds 0 and 11 and strings with no parseable leading integer
signal `InvalidFanSpeed`, in which case no request is issued and the client
state is unchanged; every plain integer string 1–10 is accepted. -/
theorem setFanSpeed_validation :
    (∀ s : String, (setFanSpeedWire s).isSome = true ↔
      (toUpper s = "AUTO" ∨ ∃ n : ℤ, jsParseInt s = some n ∧ 1 ≤ n ∧ n ≤ 10)) ∧
    setFanSpeedWire "0" = none ∧
    setFanSpeedWire "11" = none ∧
    setFanSpeedWire "fast" = none ∧
    (∀ n : ℤ, 1 ≤ n → n ≤ 10 → (setFanSpeedWire (toString n)).isSome = true) ∧
    (∀ (fuel : Nat) (cs : ClientState) (cnt : Counters) (env : Env)
      (deviceId : Option String) (s : String),
      setFanSpeedWire s = none →
      setFanSpeedM fuel cs cnt env deviceId s =
        some (Except.error DysonError.invalidFanSpeed, cs, cnt)) := by
  refine ⟨?_, by decide, by decide, by decide, ?_, ?_⟩
  · intro s
    by_cases hA : toUpper s = "AUTO"
    · simp [setFanSpeedWire, hA]
    · cases hP : jsParseInt s with
      | none =>
        rw [setFanSpeedWire_none s hA hP]
        simp [hA, hP]
      | some n =>
        rw [setFanSpeedWire_some s n hA hP]
        constructor
        · intro h
          split_ifs at h with hrange
          · simp at h
          · exact Or.inr ⟨n, rfl, by omega⟩
        · rintro (h | ⟨m, hm, h1, h10⟩)
          · exact absurd h hA
          · injection hm with hnm
            subst hnm
            rw [if_neg (by omega)]
            rfl
  · intro n h1 h10
    interval_cases n <;> decide
  · intro fuel cs cnt env deviceId s h
    simp [setFanSpeedM, h]

/-- C2 witness: `"7"` is accepted (via the iff at 7), `"moo"` is rejected
without any request being issued. -/
theorem setFanSpeed_validation_witness :
    ((setFanSpeedWire "7").isSome = true ↔
      (toUpper "7" = "AUTO" ∨ ∃ n : ℤ, jsParseInt "7" = some n ∧ 1 ≤ n ∧ n ≤ 10)) ∧
    (setFanSpeedWire (toString (3 : ℤ))).isSome = true ∧
    setFanSpeedM 1 cs0 cnt0 envTwo401 none "moo" =
      some (Except.error DysonError.invalidFanSpeed, cs0, cnt0) :=
  ⟨(setFanSpeed_validation.1 "7"),
   setFanSpeed_validation.2.2.2.2.1 3 (by decide) (by decide),
   setFanSpeed_validation.2.2.2.2.2 1 cs0 cnt0 envTwo401 none "moo" (by decide)⟩

/-- Successful manifest fetch from a state that already holds a token. -/
theorem getDevicesAux_ok (fuel : Nat) (t : String) (devs : List DysonDevice)
    (cnt : Counters) (env : Env) (raws : List RawDevice)
    (hman : env.manifestResp cnt.manifests = ⟨200, raws⟩) :
    getDevicesAux (fuel + 1) ⟨some t, devs⟩ cnt env =
      some (Except.ok (raws.map mapRaw), ⟨some t, raws.map mapRaw⟩,
            { cnt with manifests := cnt.manifests + 1 }) := by
  simp [getDevicesAux, ensureAuth_some, hman, HttpResp.isOk]

/-- C6 counterexample: JavaScript treats the empty string as falsy, so the
source's `if (deviceId)` sends the id `""` down the first-device branch: with
directory `[dev1]` (whose serial is `"ABC123"`, not `""`), resolving the given
id `""` — absent from the directory — returns the first device instead of
signalling `DeviceNotFound ""` as the claim requires. -/
theorem getDevice_empty_id_counterexample :
    dev1.serial ≠ "" ∧
    getDeviceFind [dev1] (some "") = Except.ok dev1 ∧
    getDeviceFind [dev1] (some "") ≠
      Except.error (DysonError.deviceNotFound "") := by
  refine ⟨by decide, rfl, ?_⟩
  intro h
  rw [show getDeviceFind [dev1] (some "") = Except.ok dev1 from rfl] at h
  exact Except.noConfusion h

/-- C6 (amended): `getDevice` fetches the directory first when it is empty; a
given non-empty id absent from the directory signals `DeviceNotFound(id)`; an
omitted id — or an empty-string id, which JavaScript's `if (deviceId)` treats
as falsy, i.e. as omitted — resolves to the first entry in directory order,
and signals `NoDevicesFound` when the directory is empty even after the
fetch. -/
theorem getDevice_resolution :
    (∀ (devices : List DysonDevice) (id : String), id ≠ "" →
      (∀ d ∈ devices, d.serial ≠ id) →
      getDeviceFind devices (some id) = Except.error (DysonError.deviceNotFound id)) ∧
    (∀ (dev : DysonDevice) (rest : List DysonDevice),
      getDeviceFind (dev :: rest) none = Except.ok dev) ∧
    (∀ (dev : DysonDevice) (rest : List DysonDevice),
      getDeviceFind (dev :: rest) (some "") = Except.ok dev) ∧
    getDeviceFind [] none = Except.error DysonError.noDevicesFound ∧
    (∀ (fuel : Nat) (t : String) (cnt : Counters) (env : Env)
      (deviceId : Option String) (raws : List RawDevice),
      env.manifestResp cnt.manifests = ⟨200, raws⟩ →
      getDeviceM (fuel + 1) ⟨some t, []⟩ cnt env deviceId =
        some (getDeviceFind (raws.map mapRaw) deviceId, ⟨some t, raws.map mapRaw⟩,
              { cnt with manifests := cnt.manifests + 1 })) ∧
    (∀ (fuel : Nat) (t : String) (cnt : Counters) (env : Env),
      env.manifestResp cnt.manifests = ⟨200, []⟩ →
      getDeviceM (fuel + 1) ⟨some t, []⟩ cnt env none =
        some (Except.error DysonError.noDevicesFound, ⟨some t, []⟩,
              { cnt with manifests := cnt.manifests + 1 })) := by
  have hfetch : ∀ (fuel : Nat) (t : String) (cnt : Counters) (env : Env)
      (deviceId : Option String) (raws : List RawDevice),
      env.manifestResp cnt.manifests = ⟨200, raws⟩ →
      getDeviceM (fuel + 1) ⟨some t, []⟩ cnt env deviceId =
        some (getDeviceFind (raws.map mapRaw) deviceId, ⟨some t, raws.map mapRaw⟩,
              { cnt with manifests := cnt.manifests + 1 }) := by
    intro fuel t cnt env deviceId raws hman
    simp [getDeviceM, getDevicesAux_ok fuel t [] cnt env raws hman]
  refine ⟨?_, fun dev rest => rfl, ?_, rfl, hfetch, ?_⟩
  · intro devices id hid0 hid
    have ht : truthy (some id) = true := by simp [truthy, hid0]
    have hfind : devices.find? (fun d => d.serial == id) = none := by
      rw [List.find?_eq_none]
      intro d hd
      simpa using hid d hd
    simp [getDeviceFind, ht, hfind]
  · intro dev rest
    simp [getDeviceFind, truthy]
  · intro fuel t cnt env hman
    simpa using hfetch fuel t cnt env none [] hman

/-- C6 witness: concrete directory fetch followed by resolution — a missing
non-empty id signals `DeviceNotFound`, an omitted id and the falsy empty id
both resolve to the first fetched device. -/
theorem getDevice_resolution_witness :
    getDeviceFind [dev1] (some "nope") = Except.error (DysonError.deviceNotFound "nope") ∧
    getDeviceFind [dev1] none = Except.ok dev1 ∧
    getDeviceFind [dev1] (some "") = Except.ok dev1 ∧
    getDeviceM 1 ⟨some "tok", []⟩ cnt0 envStatus401 none =
      some (getDeviceFind [dev1] none, ⟨some "tok", [dev1]⟩, ⟨0, 1, 0, 0⟩) :=
  ⟨getDevice_resolution.1 [dev1] "nope" (by decide) (by decide),
   getDevice_resolution.2.1 dev1 [],
   getDevice_resolution.2.2.1 dev1 [],
   getDevice_resolution.2.2.2.2.1 0 "tok" cnt0 envStatus401 none [rawDev1] rfl⟩

/-- C7: on a successful partial update, `setDeviceState` performs a confirming
re-read and returns exactly the status projected from that fresh fetch (the
update response's body is universally quantified and never used); on a
non-success update status it signals `StateUpdateFailed(status)` and issues
no re-read (the state-read counter is unchanged). -/
theorem setDeviceState_confirming_read :
    ∀ (fuel : Nat) (t : String) (dev : DysonDevice) (rest : List DysonDevice)
      (cnt : Counters) (env : Env) (patch : List (String × String)),
      ((env.updateResp cnt.updates).isOk = true →
        setDeviceStateM fuel ⟨some t, dev :: rest⟩ cnt env none patch =
          getDeviceStatusM fuel ⟨some t, dev :: rest⟩
            { cnt with updates := cnt.updates + 1 } env (some dev.serial)) ∧
      ((env.updateResp cnt.updates).isOk = true →
        (env.stateResp cnt.stateReads).isOk = true →
        setDeviceStateM fuel ⟨some t, dev :: rest⟩ cnt env none patch =
          some (Except.ok (deviceStatusOfState dev (env.stateResp cnt.stateReads).body),
                ⟨some t, dev :: rest⟩,
                { cnt with updates := cnt.updates + 1, stateReads := cnt.stateReads + 1 })) ∧
      ((env.updateResp cnt.updates).isOk = false →
        setDeviceStateM fuel ⟨some t, dev :: rest⟩ cnt env none patch =
          some (Except.error (DysonError.stateUpdateFailed (env.updateResp cnt.updates).status),
                ⟨some t, dev :: rest⟩, { cnt with updates := cnt.updates + 1 })) := by
  intro fuel t dev rest cnt env patch
  have hred : ∀ hupd : (env.updateResp cnt.updates).isOk = true,
      setDeviceStateM fuel ⟨some t, dev :: rest⟩ cnt env none patch =
        getDeviceStatusM fuel ⟨some t, dev :: rest⟩
          { cnt with updates := cnt.updates + 1 } env (some dev.serial) := by
    intro hupd
    simp only [setDeviceStateM, ensureAuth_some, getDeviceM_cons, getDeviceFind_first,
      hupd, if_true]
  refine ⟨hred, ?_, ?_⟩
  · intro hupd hstate
    rw [hred hupd]
    exact getDeviceStatusM_ready fuel t dev rest { cnt with updates := cnt.updates + 1 }
      env (some dev.serial) (getDeviceFind_head dev rest) hstate
  · intro hupd
    simp only [setDeviceStateM, ensureAuth_some, getDeviceM_cons, getDeviceFind_first,
      hupd, Bool.false_eq_true, if_false]

/-- C7 witness: with a successful update and re-read, the returned status is
the projection of the freshly fetched wire state; with a 500 update status,
`StateUpdateFailed(500)` is signalled and no state read happens. -/
theorem setDeviceState_confirming_read_witness :
    setDeviceStateM 1 ⟨some "tok", [dev1]⟩ cnt0 envGarbled none [("oson", "ON")] =
      some (Except.ok (deviceStatusOfState dev1 garbledState), ⟨some "tok", [dev1]⟩,
            ⟨0, 0, 1, 1⟩) ∧
    setDeviceStateM 1 ⟨some "tok", [dev1]⟩ cnt0 envUpdate500 none [("oson", "ON")] =
      some (Except.error (DysonError.stateUpdateFailed 500), ⟨some "tok", [dev1]⟩,
            ⟨0, 0, 0, 1⟩) :=
  ⟨(setDeviceState_confirming_read 1 "tok" dev1 [] cnt0 envGarbled
      [("oson", "ON")]).2.1 (by decide) (by decide),
   (setDeviceState_confirming_read 1 "tok" dev1 [] cnt0 envUpdate500
      [("oson", "ON")]).2.2 (by decide)⟩

/-- C10: `parseFanSpeed` is total — `"AUTO"` maps to `"auto"`, a parseable
code maps to its decimal rendering, and any unparseable code (empty string
included) maps to `"NaN"` rather than failing; consequently `getDeviceStatus`
succeeds on any fetched wire state, whatever its `fnsp`, and its `fanSpeed`
field is `parseFanSpeed` of that `fnsp`. -/
theorem parseFanSpeed_total :
    parseFanSpeed "AUTO" = "auto" ∧
    parseFanSpeed "" = "NaN" ∧
    parseFanSpeed "garbage" = "NaN" ∧
    parseFanSpeed "0007" = "7" ∧
    (∀ s : String, s ≠ "AUTO" → jsParseInt s = none → parseFanSpeed s = "NaN") ∧
    (∀ (s : String) (n : ℤ), s ≠ "AUTO" → jsParseInt s = some n →
      parseFanSpeed s = toString n) ∧
    (∀ (fuel : Nat) (t : String) (dev : DysonDevice) (rest : List DysonDevice)
      (cnt : Counters) (env : Env),
      (env.stateResp cnt.stateReads).isOk = true →
      getDeviceStatusM fuel ⟨some t, dev :: rest⟩ cnt env none =
        some (Except.ok (deviceStatusOfState dev (env.stateResp cnt.stateReads).body),
              ⟨some t, dev :: rest⟩, { cnt with stateReads := cnt.stateReads + 1 }) ∧
      (deviceStatusOfState dev (env.stateResp cnt.stateReads).body).fanSpeed =
        parseFanSpeed (env.stateResp cnt.stateReads).body.fnsp) := by
  refine ⟨rfl, rfl, rfl, rfl, ?_, ?_, ?_⟩
  · intro s hA hP
    simp [parseFanSpeed, hA, hP, jsIntToString]
  · intro s n hA hP
    simp [parseFanSpeed, hA, hP, jsIntToString]
  · intro fuel t dev rest cnt env h
    exact ⟨getDeviceStatusM_ready fuel t dev rest cnt env none
      (getDeviceFind_first dev rest) h, rfl⟩

/-- C10 witness: a fetched wire state whose `fnsp` is `"garbage"` still yields
a successful status whose `fanSpeed` is `parseFanSpeed "garbage" = "NaN"`. -/
theorem parseFanSpeed_total_witness :
    (getDeviceStatusM 1 ⟨some "tok", [dev1]⟩ cnt0 envGarbled none =
      some (Except.ok (deviceStatusOfState dev1 garbledState), ⟨some "tok", [dev1]⟩,
            ⟨0, 0, 1, 0⟩) ∧
      (deviceStatusOfState dev1 garbledState).fanSpeed = parseFanSpeed "garbage") ∧
    parseFanSpeed "garbage" = "NaN" :=
  ⟨parseFanSpeed_total.2.2.2.2.2.2 1 "tok" dev1 [] cnt0 envGarbled (by decide),
   parseFanSpeed_total.2.2.2.2.1 "garbage" (by decide) (by decide)⟩

/-- C1 counterexample: with the manifest endpoint answering 401 twice and then
succeeding, `getDevices` silently re-authenticates and retries twice — three
authentications and three manifest fetches, ending in success — instead of
propagating an error after the second consecutive 401; and a 401 on a state
read propagates immediately with no re-authentication at all (the auth counter
stays 0), instead of triggering one re-authentication and one retry. -/
theorem auth_retry_counterexample :
    getDevicesAux 5 cs0 cnt0 envTwo401 =
      some (Except.ok [dev1], ⟨some "tok", [dev1]⟩, ⟨3, 3, 0, 0⟩) ∧
    getDeviceStatusM 1 ⟨some "tok", [dev1]⟩ cnt0 envStatus401 none =
      some (Except.error (DysonError.getStatusFailed 401), ⟨some "tok", [dev1]⟩,
            ⟨0, 0, 1, 0⟩) :=
  ⟨rfl, rfl⟩

/-- C1 (amended): on the manifest fetch a 401 clears the session,
re-authenticates and retries recursively with no bound — consecutive 401s keep
retrying, and under persistent 401s with successful re-authentication the
fetch never terminates (every fuel is exhausted); on state reads and state
writes a 401 is never retried: it propagates at once as an error with no
re-authentication. -/
theorem auth_retry_behavior :
    getDevicesAux 5 cs0 cnt0 envTwo401 =
      some (Except.ok [dev1], ⟨some "tok", [dev1]⟩, ⟨3, 3, 0, 0⟩) ∧
    (∀ (fuel : Nat) (cs : ClientState) (cnt : Counters) (env : Env),
      (∀ i, (env.manifestResp i).status = 401) →
      (∀ i, (env.authResp i).status = 200) →
      getDevicesAux fuel cs cnt env = none) ∧
    (∀ (fuel : Nat) (t : String) (dev : DysonDevice) (rest : List DysonDevice)
      (cnt : Counters) (env : Env),
      (env.stateResp cnt.stateReads).status = 401 →
      getDeviceStatusM fuel ⟨some t, dev :: rest⟩ cnt env none =
        some (Except.error (DysonError.getStatusFailed 401), ⟨some t, dev :: rest⟩,
              { cnt with stateReads := cnt.stateReads + 1 })) ∧
    (∀ (fuel : Nat) (t : String) (dev : DysonDevice) (rest : List DysonDevice)
      (cnt : Counters) (env : Env) (patch : List (String × String)),
      (env.updateResp cnt.updates).status = 401 →
      setDeviceStateM fuel ⟨some t, dev :: rest⟩ cnt env none patch =
        some (Except.error (DysonError.stateUpdateFailed 401), ⟨some t, dev :: rest⟩,
              { cnt with updates := cnt.updates + 1 })) := by
  refine ⟨rfl, ?_, ?_, ?_⟩
  · intro fuel cs cnt env hM hA
    have hAuth : ∀ i, authenticateResult (env.authResp i) =
        Except.ok (env.authResp i).body := by
      intro i
      have hok : (env.authResp i).isOk = true := by simp [HttpResp.isOk, hA i]
      simp [authenticateResult, hok]
    have hMan : ∀ i, (env.manifestResp i).isOk = false := by
      intro i
      simp [HttpResp.isOk, hM i]
    induction fuel generalizing cs cnt with
    | zero => rfl
    | succ fuel ih =>
      obtain ⟨tk, devs⟩ := cs
      cases tk with
      | some t =>
        simp only [getDevicesAux, ensureAuth_some, hMan, hM, hAuth, Bool.false_eq_true,
          if_false, if_pos rfl]
        exact ih _ _
      | none =>
        simp only [getDevicesAux, ensureAuth, hAuth, hMan, hM, Bool.false_eq_true,
          if_false, if_pos rfl]
        exact ih _ _
  · intro fuel t dev rest cnt env h
    have hbad : (env.stateResp cnt.stateReads).isOk = false := by
      simp [HttpResp.isOk, h]
    simp only [getDeviceStatusM, ensureAuth_some, getDeviceM_cons, getDeviceFind_first,
      hbad, Bool.false_eq_true, if_false, h]
  · intro fuel t dev rest cnt env patch h
    have hbad : (env.updateResp cnt.updates).isOk = false := by
      simp [HttpResp.isOk, h]
    simp only [setDeviceStateM, ensureAuth_some, getDeviceM_cons, getDeviceFind_first,
      hbad, Bool.false_eq_true, if_false, h]

/-- C1 witness: the unbounded-retry part at fuel 3 against an all-401 manifest
environment, and the no-retry part at a concrete 401 state read. -/
theorem auth_retry_behavior_witness :
    getDevicesAux 3 cs0 cnt0 envAll401 = none ∧
    getDeviceStatusM 2 ⟨some "tok", [dev1]⟩ cnt0 envStatus401 none =
      some (Except.error (DysonError.getStatusFailed 401), ⟨some "tok", [dev1]⟩,
            ⟨0, 0, 1, 0⟩) :=
  ⟨auth_retry_behavior.2.1 3 cs0 cnt0 envAll401 (fun _ => rfl) (fun _ => rfl),
   auth_retry_behavior.2.2.1 2 "tok" dev1 [] cnt0 envStatus401 rfl⟩

/-- C3: the projected status has air quality present iff at least one of
`pm25`, `pact`, `hact` is present (JavaScript-truthy) in the wire state —
otherwise it is `null`, not a zero-filled record — and when present, `pm25`
is the parsed `pm25` field, else parsed `pact`, else 0; `pm10`, `voc`, `no2`
and `humidity` default to 0 when their fields are absent; and temperature is
`round((tact/10 - 273.15) * 10) / 10` when `tact` is present, else 0. -/
theorem parseAirQuality_spec : ∀ st : DysonState,
    ((parseAirQuality st).isSome = true ↔
      (truthy st.pm25 = true ∨ truthy st.pact = true ∨ truthy st.hact = true)) ∧
    (∀ aq : AirQuality, parseAirQuality st = some aq →
      aq.pm25 = (if truthy st.pm25 then jsParseIntQ (st.pm25.getD "")
                 else if truthy st.pact then jsParseIntQ (st.pact.getD "")
                 else some 0) ∧
      aq.pm10 = (if truthy st.pm10 then jsParseIntQ (st.pm10.getD "") else some 0) ∧
      aq.voc = (if truthy st.vact then jsParseIntQ (st.vact.getD "") else some 0) ∧
      aq.no2 = (if truthy st.noxl then jsParseIntQ (st.noxl.getD "") else some 0) ∧
      aq.humidity = (if truthy st.hact then jsParseIntQ (st.hact.getD "") else some 0) ∧
      aq.temperature = (if truthy st.tact then
          (jsParseInt (st.tact.getD "")).map
            (fun n => ((⌊((n : ℚ) / 10 - 27315/100) * 10 + 1/2⌋ : ℤ) : ℚ) / 10)
        else some 0)) := by
  intro st
  constructor
  · cases hp : truthy st.pm25 <;> cases hq : truthy st.pact <;> cases hr : truthy st.hact <;>
      simp [parseAirQuality, hp, hq, hr]
  · intro aq h
    by_cases hcond : (!truthy st.pm25 && !truthy st.pact && !truthy st.hact) = true
    · unfold parseAirQuality at h
      rw [if_pos hcond] at h
      cases h
    · unfold parseAirQuality at h
      rw [if_neg hcond] at h
      obtain rfl : _ = aq := Option.some.inj h
      exact ⟨rfl, rfl, rfl, rfl, rfl, rfl⟩

/-- C3 witness: a wire state whose only sensor field is `pm25 = "15"` — air
quality is present, `pm25` parses, every other reading defaults to 0. -/
theorem parseAirQuality_spec_witness :
    ((parseAirQuality sensorState).isSome = true ↔
      (truthy sensorState.pm25 = true ∨ truthy sensorState.pact = true ∨
        truthy sensorState.hact = true)) ∧
    (sensorAirQuality.pm25 = (if truthy sensorState.pm25 then
         jsParseIntQ (sensorState.pm25.getD "")
       else if truthy sensorState.pact then jsParseIntQ (sensorState.pact.getD "")
       else some 0) ∧
     sensorAirQuality.pm10 = (if truthy sensorState.pm10 then
         jsParseIntQ (sensorState.pm10.getD "") else some 0) ∧
     sensorAirQuality.voc = (if truthy sensorState.vact then
         jsParseIntQ (sensorState.vact.getD "") else some 0) ∧
     sensorAirQuality.no2 = (if truthy sensorState.noxl then
         jsParseIntQ (sensorState.noxl.getD "") else some 0) ∧
     sensorAirQuality.humidity = (if truthy sensorState.hact then
         jsParseIntQ (sensorState.hact.getD "") else some 0) ∧
     sensorAirQuality.temperature = (if truthy sensorState.tact then
         (jsParseInt (sensorState.tact.getD "")).map
           (fun n => ((⌊((n : ℚ) / 10 - 27315/100) * 10 + 1/2⌋ : ℤ) : ℚ) / 10)
       else some 0)) :=
  ⟨(parseAirQuality_spec sensorState).1,
   (parseAirQuality_spec sensorState).2 sensorAirQuality rfl⟩


set_option maxHeartbeats 1000000 in
/-- Concrete rendering: 22.5 prints as `"22.5"`. -/
theorem jsNumToString_225 : jsNumToString ((45 : ℚ)/2) = "22.5" := by
  have h22 : ⌊(45 : ℚ)/2⌋ = 22 := by
    rw [Int.floor_eq_iff]
    norm_num
  unfold jsNumToString
  rw [if_neg (by norm_num : ¬((45 : ℚ)/2 < 0))]
  unfold jsNumToStringCore
  rw [h22, if_neg (by norm_num : ¬(((22 : ℤ) : ℚ) = (45 : ℚ)/2)),
    show (45 : ℚ)/2 - ((22 : ℤ) : ℚ) = 1/2 by norm_num,
    show (20 : ℕ) = 19 + 1 from rfl]
  unfold fracDigits
  rw [if_neg (by norm_num : ¬((1 : ℚ)/2 = 0)),
    show (1 : ℚ)/2 * 10 = 5 by norm_num,
    show ⌊(5 : ℚ)⌋ = 5 by rw [Int.floor_eq_iff]; norm_num,
    show (5 : ℚ) - ((5 : ℤ) : ℚ) = 0 by norm_num]
  decide

/-- C9: `formatTemperature` renders the raw value with `°C` in Celsius and
`round(celsius * 9/5 + 32)` with `°F` in Fahrenheit, with the concrete values
22.5 °C → "22.5°C", 0 °C → "32°F", 100 °C → "212°F" and 37 °C → "99°F". -/
theorem formatTemperature_spec :
    (∀ c : ℚ, formatTemperature c 'C' = jsNumToString c ++ "°C") ∧
    (∀ c : ℚ, formatTemperature c 'F' = toString ⌊c * 9/5 + 32 + 1/2⌋ ++ "°F") ∧
    formatTemperature (45/2) 'C' = "22.5°C" ∧
    formatTemperature 0 'F' = "32°F" ∧
    formatTemperature 100 'F' = "212°F" ∧
    formatTemperature 37 'F' = "99°F" := by
  have hC : ∀ c : ℚ, formatTemperature c 'C' = jsNumToString c ++ "°C" := by
    intro c
    simp [formatTemperature]
  have hF : ∀ c : ℚ, formatTemperature c 'F' = toString ⌊c * 9/5 + 32 + 1/2⌋ ++ "°F" := by
    intro c
    simp [formatTemperature, jsRound]
  refine ⟨hC, hF, ?_, ?_, ?_, ?_⟩
  · rw [hC (45/2), jsNumToString_225]
    decide
  · rw [hF 0, show ⌊(0 : ℚ) * 9/5 + 32 + 1/2⌋ = 32 by rw [Int.floor_eq_iff]; norm_num]
    decide
  · rw [hF 100, show ⌊(100 : ℚ) * 9/5 + 32 + 1/2⌋ = 212 by rw [Int.floor_eq_iff]; norm_num]
    decide
  · rw [hF 37, show ⌊(37 : ℚ) * 9/5 + 32 + 1/2⌋ = 99 by rw [Int.floor_eq_iff]; norm_num]
    decide
